import Mathlib

/-!
Verification of the honkhost gameserver-mgr coordination kernel.

Shallow embedding of the relevant source functions of the repository:

* `app/lib/parseBool.mjs`          — `parseBool`
* `app/lib/lockfile.mjs` (also shipped as `app/lib/lock.mjs`) — `isLocked`
* `app/lib/steamcmd.mjs`           — output-line parsing of `runSteamCmd`
                                     and its exit-code / retry policy
* `app/bin/downloadManager.mjs`    — the `downloadUpdateGame` handler
* `app/lib/ipc.mjs`                — the wire shape of `sendRequestReply`
* `app/bin/lifecycleManager.mjs`   — the `ipc.on(start)` coordinator

External collaborators (the pub/sub bus, the steam content tool, the
filesystem, the npm `lockfile` package) are modelled as oracles supplied in
environment records; everything the repository code itself computes is
embedded directly from the source.
-/

namespace GsMgr

/-! ## app/lib/parseBool.mjs

The single exported function.  Its argument is an environment-variable
value, i.e. either a string or `undefined`; we model the argument as
`Option String` (`none` = absent).  A JavaScript string is falsy exactly
when it is empty.  `toLowerCase().trim()` is modelled by
`String.toLower` / `String.trim` (the inputs occurring in this repository
are ASCII).
-/

/-- Embedding of `parseBool` (app/lib/parseBool.mjs lines 8-29): falsy
arguments give `false`; otherwise the lowercased and trimmed string is
compared against the literal truthy and falsy word lists, and any other
(necessarily truthy) string yields `Boolean(string) = true`. -/
def parseBool (string : Option String) : Bool :=
  match string with
  | none => false
  | some s =>
    if s = "" then false
    else
      let t := s.toLower.trim
      if t = "true" ∨ t = "yes" ∨ t = "1" then true
      else if t = "false" ∨ t = "no" ∨ t = "0" ∨ t = "" then false
      else true

/-! ## app/lib/lockfile.mjs — `isLocked`

`isLocked(pattern, stale)` (lines 71-101 of `app/lib/lockfile.mjs`, lines
220-250 of `app/lib/lock.mjs`) lists the lock directory and loops with
`for (let i = 0; i <= locks.length; i++)`.  For `i < locks.length` it tests
the regex against `locks[i]` and, on the first match, immediately resolves
with `lock.checkSync` of that single file.  At `i = locks.length` the
element read is `undefined`, which `RegExp.test` coerces to the string
"undefined"; if even that does not match the loop resolves `false`.

The regex test is modelled as an arbitrary decidable predicate `rxTest`
on file names, and the external `lock.checkSync` call (with the option
object built from the `stale` argument already folded in) as an oracle
`checkSync` from file names to `Bool` — `checkSync l = true` is read as
"the lock file `l` is currently held by a live holder" (resp. "exists at
all" under `staleOk`).
-/

/-- Embedding of `isLocked`: resolve with the `checkSync` status of the
first directory entry matching the pattern; after the last entry the
out-of-range read tests the coerced string "undefined"; otherwise resolve
`false`. -/
def isLocked (rxTest : String → Bool) (checkSync : String → Bool) :
    List String → Bool
  | [] => if rxTest "undefined" then checkSync "undefined" else false
  | l :: ls => if rxTest l then checkSync l else isLocked rxTest checkSync ls

/-! ## app/lib/steamcmd.mjs — exit-code and retry policy of `runSteamCmd`

The `onExit` hook of the spawned tool (lines 462-523) implements:

* if a cancel command was seen (`cancelInProgress`), resolve `canceled`
  whatever the exit code;
* exit code 42: recursively call `runSteamCmd(options, …)` with the same
  `options` (hence the same script) and resolve with whatever the retry
  resolves to — there is no depth counter anywhere;
* exit code 0: resolve `completed`;
* any other code: reject with the failing exit code.

We model one run of the driver by the sequence of exit events of the
successive child processes.  `runSteamCmdSpawns script events` returns the
list of scripts that were spawned (one entry per spawn, in order) together
with the final outcome; an empty remaining event list means the current
child never exits — the recursion never resolves — which is reported as
outcome `none`.
-/

/-- Exit event of one spawned content-tool child: either the process
exited with a code, or a cancel command arrived first (so that
`cancelInProgress` is set when the exit fires). -/
inductive SteamExitEvent where
  | exited (code : Nat)
  | canceled
  deriving DecidableEq, Repr

/-- Final outcome of `runSteamCmd` as observed by its caller. -/
inductive RunOutcome where
  | completed
  | canceled
  | failed (code : Nat)
  deriving DecidableEq, Repr

/-- Embedding of the `onExit` retry policy of `runSteamCmd`: spawn, look at
the next exit event, and on exit code 42 re-spawn with the same script. -/
def runSteamCmdSpawns (script : List String) :
    List SteamExitEvent → List (List String) × Option RunOutcome
  | [] => ([script], none)
  | SteamExitEvent.canceled :: _ => ([script], some RunOutcome.canceled)
  | SteamExitEvent.exited c :: rest =>
    if c = 42 then
      let r := runSteamCmdSpawns script rest
      (script :: r.1, r.2)
    else if c = 0 then ([script], some RunOutcome.completed)
    else ([script], some (RunOutcome.failed c))

/-! ## app/lib/steamcmd.mjs — output-line parsing of `runSteamCmd`

The `onData` hook (lines 374-459) splits each raw chunk on CRLF, skips
empty lines, pushes every non-empty line to the output sink, and tests the
line against two progress regexes, pushing a progress snapshot for each
match:

* tool self-update:
  `[caret][ (0-2 whitespace) ([0-9]+)% ] ([A-Za-z]+) .* ( ([0-9]+) of ([0-9]+) .* [dollar]`
* appid download:
  `[caret] Update state (([0-9]x[0-9]+)) ([word or space]*), progress: ([0-9]+.[0-9]+) (([0-9]+) / ([0-9]+))[dollar]`

Lines are modelled as `List Char` and both anchored regexes as
deterministic parsers.  Each quantified class in the two regexes is
followed by a character outside the class, so the greedy JavaScript
semantics coincide with maximal take-while runs; the single genuinely
backtracking piece, the `.*` before the parenthesised byte counts of the
self-update form, greedily prefers the rightmost viable position, which is
implemented by `searchLastParenOf`.
-/

/-- Character class of the JavaScript `\w` (ASCII, no `u` flag): letters,
digits and underscore. -/
def jsIsWord (c : Char) : Bool := c.isAlpha || c.isDigit || c == '_'

/-- Characters matched by `[\w ]`, the state-name class of the appid
regex. -/
def jsIsWordSpace (c : Char) : Bool := jsIsWord c || c == ' '

/-- ASCII whitespace as matched by the JavaScript `\s` class. -/
def jsIsSpace (c : Char) : Bool :=
  c == ' ' || c == '\t' || c == '\n' || c == '\r' ||
  c == '\x0b' || c == '\x0c'

/-- Lowercase hex digits, the `[0-9a-f]` class of the specification
version of the appid regex. -/
def isHexLower (c : Char) : Bool := c.isDigit || ('a' ≤ c && c ≤ 'f')

/-- Consume an exact literal prefix, returning the rest of the input. -/
def expectLit : List Char → List Char → Option (List Char)
  | [], cs => some cs
  | _ :: _, [] => none
  | l :: ls, c :: cs => if c = l then expectLit ls cs else none

/-- Consume a non-empty maximal run of decimal digits (`[0-9]+`). -/
def takeDigits1 (cs : List Char) : Option (List Char × List Char) :=
  let ds := cs.takeWhile Char.isDigit
  if ds.isEmpty then none else some (ds, cs.dropWhile Char.isDigit)

/-- Consume a decimal number of the shape `[0-9]+[.][0-9]+`. -/
def takeDecimal (cs : List Char) : Option (List Char × List Char) := do
  let (a, cs) ← takeDigits1 cs
  match cs with
  | '.' :: cs => do
    let (b, cs) ← takeDigits1 cs
    some (a ++ '.' :: b, cs)
  | _ => none

/-- Consume at most two whitespace characters, greedily (the `\s{0,2}` of
the self-update regex; the following digit class is disjoint from
whitespace, so the greedy consumption is exact). -/
def dropUpTo2Spaces (cs : List Char) : List Char :=
  match cs with
  | a :: rest =>
    if jsIsSpace a then
      match rest with
      | b :: rest2 => if jsIsSpace b then rest2 else rest
      | [] => []
    else cs
  | [] => []

/-- Captures of the appid-download regex of `runSteamCmd`, in match
order. -/
structure AppidCaps where
  stateHex : List Char
  stateName : List Char
  progressPct : List Char
  received : List Char
  total : List Char
  deriving DecidableEq, Repr

/-- Captures of the tool-self-update regex of `runSteamCmd`. -/
structure SteamSelfCaps where
  pct : List Char
  verb : List Char
  received : List Char
  total : List Char
  deriving DecidableEq, Repr

/-- Embedding of the appid-download regex used at steamcmd.mjs line 429:
one digit, a literal `x` and one or more further digits for the state
group, a word-or-space state name, a decimal percentage and the two byte
counts, anchored at both ends. -/
def parseAppidLine (line : List Char) : Option AppidCaps := do
  let cs ← expectLit " Update state (".data line
  match cs with
  | d :: 'x' :: cs =>
    if d.isDigit then do
      let (ds, cs) ← takeDigits1 cs
      let cs ← expectLit ") ".data cs
      let g2 := cs.takeWhile jsIsWordSpace
      let cs := cs.dropWhile jsIsWordSpace
      let cs ← expectLit ", progress: ".data cs
      let (g3, cs) ← takeDecimal cs
      let cs ← expectLit " (".data cs
      let (g4, cs) ← takeDigits1 cs
      let cs ← expectLit " / ".data cs
      let (g5, cs) ← takeDigits1 cs
      let cs ← expectLit ")".data cs
      if cs.isEmpty then some ⟨d :: 'x' :: ds, g2, g3, g4, g5⟩ else none
    else none
  | _ => none

/-- Variant of the appid state group as written in the specification:
literal `0x` followed by one or more lowercase hex digits; every other
part of the regex is identical to the source version. -/
def parseSpecGameDownload (line : List Char) : Option AppidCaps := do
  let cs ← expectLit " Update state (0x".data line
  let hs := cs.takeWhile isHexLower
  if hs.isEmpty then none else do
    let cs := cs.dropWhile isHexLower
    let cs ← expectLit ") ".data cs
    let g2 := cs.takeWhile jsIsWordSpace
    let cs := cs.dropWhile jsIsWordSpace
    let cs ← expectLit ", progress: ".data cs
    let (g3, cs) ← takeDecimal cs
    let cs ← expectLit " (".data cs
    let (g4, cs) ← takeDigits1 cs
    let cs ← expectLit " / ".data cs
    let (g5, cs) ← takeDigits1 cs
    let cs ← expectLit ")".data cs
    if cs.isEmpty then some ⟨'0' :: 'x' :: hs, g2, g3, g4, g5⟩ else none

/-- Match `( [0-9]+ of [0-9]+` at the head of the input (the tail after
the second digit group is unconstrained, matching the trailing `.*`). -/
def parenOfMatch (cs : List Char) : Option (List Char × List Char) :=
  match cs with
  | '(' :: cs => do
    let (g3, cs) ← takeDigits1 cs
    let cs ← expectLit " of ".data cs
    let (g4, _) ← takeDigits1 cs
    some (g3, g4)
  | _ => none

/-- Rightmost suffix position at which `parenOfMatch` succeeds — the
greedy `.*` of the self-update regex commits to the last viable opening
parenthesis. -/
def searchLastParenOf : List Char → Option (List Char × List Char)
  | [] => none
  | c :: cs =>
    match searchLastParenOf cs with
    | some r => some r
    | none => parenOfMatch (c :: cs)

/-- Embedding of the tool-self-update regex used at steamcmd.mjs
line 400. -/
def parseSteamSelfLine (line : List Char) : Option SteamSelfCaps := do
  match line with
  | '[' :: cs =>
    let cs := dropUpTo2Spaces cs
    let (g1, cs) ← takeDigits1 cs
    let cs ← expectLit "%] ".data cs
    let g2 := cs.takeWhile Char.isAlpha
    if g2.isEmpty then none
    else do
      let cs := cs.dropWhile Char.isAlpha
      let (g3, g4) ← searchLastParenOf cs
      some ⟨g1, g2, g3, g4⟩
  | _ => none

/-- JavaScript `String.trim` on a character list. -/
def trimL (cs : List Char) : List Char :=
  ((cs.dropWhile jsIsSpace).reverse.dropWhile jsIsSpace).reverse

/-- Progress snapshot pushed on the progress sink, with the field names of
the source objects (steamcmd.mjs lines 403-411 and 434-442). -/
structure ProgressSnapshot where
  downloadStage : String
  downloadStateHex : Option (List Char)
  downloadState : Option (List Char)
  downloadProgress : Option (List Char)
  downloadProgressReceived : Option (List Char)
  downloadProgressTotal : Option (List Char)
  progressLine : List Char
  deriving DecidableEq, Repr

/-- Snapshot built in the self-update branch: constant stage and state-hex
strings, lowercased verb, trimmed percentage. -/
def mkSteamSelfSnapshot (line : List Char) (caps : SteamSelfCaps) :
    ProgressSnapshot :=
  { downloadStage := "steamcmd_download"
    downloadStateHex := some "0x00".data
    downloadState := some (caps.verb.map Char.toLower)
    downloadProgress := some (trimL caps.pct)
    downloadProgressReceived := some caps.received
    downloadProgressTotal := some caps.total
    progressLine := line }

/-- Snapshot built in the appid branch: all five captures verbatim. -/
def mkAppidSnapshot (line : List Char) (caps : AppidCaps) :
    ProgressSnapshot :=
  { downloadStage := "appid_download"
    downloadStateHex := some caps.stateHex
    downloadState := some caps.stateName
    downloadProgress := some caps.progressPct
    downloadProgressReceived := some caps.received
    downloadProgressTotal := some caps.total
    progressLine := line }

/-- Progress snapshots pushed for one non-empty output line: the
self-update test-and-match followed by the appid test-and-match, in source
order. -/
def processLine (line : List Char) : List ProgressSnapshot :=
  (match parseSteamSelfLine line with
   | some caps => [mkSteamSelfSnapshot line caps]
   | none => []) ++
  (match parseAppidLine line with
   | some caps => [mkAppidSnapshot line caps]
   | none => [])

/-- Split a raw PTY chunk on CRLF separators, exactly like the
`rawData.split` of the source. -/
def splitCRLF : List Char → List (List Char)
  | [] => [[]]
  | '\r' :: '\n' :: rest => [] :: splitCRLF rest
  | c :: rest =>
    match splitCRLF rest with
    | [] => [[c]]
    | l :: ls => (c :: l) :: ls

/-- Process the line array of one chunk: empty strings are skipped, every
other line is pushed to the output sink and contributes its progress
snapshots. -/
def processLines : List (List Char) → List (List Char) × List ProgressSnapshot
  | [] => ([], [])
  | l :: ls =>
    let r := processLines ls
    if l = [] then r else (l :: r.1, processLine l ++ r.2)

/-- Embedding of the whole `onData` handler of `runSteamCmd`: split the
chunk on CRLF and process the resulting lines; the first component is the
sequence of output-sink lines, the second the sequence of progress-sink
snapshots. -/
def processData (raw : List Char) : List (List Char) × List ProgressSnapshot :=
  processLines (splitCRLF raw)

/-! ## app/bin/downloadManager.mjs — the `downloadUpdateGame` handler

The handler (lines 91-326) is embedded as a step function from a request
and the manager state (the `runningDownloads` object plus the lock
directory) to a new state and the ordered list of `sendRequestReply`
messages it publishes.  Awaited collaborators — `loadManifest` (a cached
dynamic import, hence a pure function of the gameId), `spinLock`,
`spinClear` and the combined `steamCmdDownloadSelf` / `steamCmdDownloadAppid`
call — are oracles in a `DMEnv` record.

JavaScript particulars that the model keeps:

* a missing `gameId` and the empty string are both falsy, so `gameId` is a
  plain `String` with the empty string meaning absent;
* the error branch after a steamcmd failure and the unsupported
  `downloadType` branch do not delete the `runningDownloads` entry but
  assign an empty object to it; the entry value is therefore an
  `Option TaskRec`, with `none` standing for the empty object;
* on a request whose key maps to such an empty object, building the nack
  payload reads `.request.replyTo` of `undefined` and throws a
  `TypeError`; the outcome records this in a `crashed` flag;
* the manifest-load catch replies with the error and then calls
  `releaseLock(globalLockId)` although this request has not acquired any
  lock yet — `lock.unlock` unlinks the file, removing the lock if some
  other process holds it;
* `JSON.stringify` of an `Error` instance produces an empty object, since
  `message` and `stack` are not enumerable; error payloads therefore
  distinguish an `Error`-valued field from a string-valued one.
-/

/-- Fields of a `downloadUpdateGame` request (doc block at
downloadManager.mjs lines 74-90). -/
structure DMRequest where
  requestId : String
  replyTo : String
  gameId : String
  validate : Bool
  steamCmdForce : Bool
  steamCmdDir : String
  serverFilesForce : Bool
  downloadDir : String
  anonymous : Bool
  username : String
  password : String
  steamcmdMultiFactorEnabled : Bool
  deriving DecidableEq, Repr

/-- Game manifest shape (`app/manifests/<gameId>.mjs`). -/
structure Manifest where
  name : String
  displayName : String
  downloadType : String
  downloadId : String
  binDir : String
  binName : String
  deriving DecidableEq, Repr

/-- Task record stored in `runningDownloads` (downloadManager.mjs lines
148-157; the three PassThrough stream handles carry no data and are not
modelled). -/
structure TaskRec where
  request : DMRequest
  gameId : String
  downloadId : String
  downloadLocked : Bool
  downloadState : String
  lastLog : List String
  errorField : Option String
  deriving DecidableEq, Repr

/-- Manager state touched by the handler: the `runningDownloads` object
(an insertion-ordered map whose values may be full task records or, after
some error paths, empty objects, modelled as `none`) and the file names
present in the shared lock directory. -/
structure DMState where
  runningDownloads : List (String × Option TaskRec)
  locks : List String
  deriving DecidableEq, Repr

/-- Value of the `error` field handed to `sendRequestReply`: the source
sometimes passes an `Error` instance (serialising to an empty JSON
object) and sometimes a plain string message. -/
inductive ErrVal where
  | errObject (msg : String)
  | str (s : String)
  deriving DecidableEq, Repr

/-- Result of the awaited steamcmd driver calls as seen by the handler:
either the resolution object (whose `reason` and `status` fields feed the
final status reply) or a rejection value, which the catch at lines 297-312
compares against `null`. -/
inductive DriverResult where
  | ok (reason status : String)
  | thrown (e : Option String)
  deriving DecidableEq, Repr

/-- Oracles for the awaited collaborators of `downloadUpdateGame`. -/
structure DMEnv where
  manifests : String → Except String Manifest
  spinLockErr : Option String
  spinClearErr : Option String
  driver : DriverResult

/-- One `sendRequestReply` publication: the subchannel under the
`replyTo` of the request, the echoed `requestId`, and the
subchannel-specific payload fields of the source object literals. -/
inductive ReplyMsg where
  | error (replyTo requestId : String) (e : ErrVal)
  | nack (replyTo requestId : String) (alreadyRequested : Bool)
      (alreadyMounted : Option Bool) (reason : String)
      (subscribeTo : String) (inflightRequestId : String)
      (origRequest : DMRequest)
  | ack (replyTo requestId : String) (subscribeTo : String)
  | finalStatus (replyTo requestId : String) (reason status : String)
      (errorFlag : Bool)
  deriving DecidableEq, Repr

/-- Outcome of one handler invocation: resulting state, ordered replies,
and whether the handler threw a `TypeError` (reading `.request` of an
empty-object entry). -/
structure DMOutcome where
  state : DMState
  replies : List ReplyMsg
  crashed : Bool
  deriving DecidableEq, Repr

/-- Supported games list (downloadManager.mjs line 26). -/
def supportedGames : List String := ["csgo"]

/-- Value stored under a key of the `runningDownloads` object, if the key
is present. -/
def lookupRD (rd : List (String × Option TaskRec)) (k : String) :
    Option (Option TaskRec) :=
  (rd.find? (fun p => p.fst == k)).map Prod.snd

/-- JavaScript `delete runningDownloads[k]`. -/
def removeRD (rd : List (String × Option TaskRec)) (k : String) :
    List (String × Option TaskRec) :=
  rd.filter (fun p => p.fst != k)

/-- JavaScript assignment `runningDownloads[k] = v`: replace the value of
an existing key, or append a new entry. -/
def setRD (rd : List (String × Option TaskRec)) (k : String)
    (v : Option TaskRec) : List (String × Option TaskRec) :=
  if rd.any (fun p => p.fst == k) then
    rd.map (fun p => if p.fst == k then (p.fst, v) else p)
  else rd ++ [(k, v)]

/-- `releaseLock` (lib/lock.mjs lines 192-213): `lock.unlock` unlinks the
file and ignores a missing one. -/
def releaseLock (locks : List String) (name : String) : List String :=
  locks.filter (fun l => l != name)

/-- Continuation of the handler from line 245 (the `switch` on
`gameInfo.downloadType`), entered with the record created and in state
`preparing`, the global download lock held, and the ack already
published. -/
def dmRunDriver (env : DMEnv) (st : DMState) (req : DMRequest)
    (gameInfo : Manifest) (globalLockId : String) : DMOutcome :=
  let ackMsg := ReplyMsg.ack req.replyTo req.requestId req.replyTo
  if gameInfo.downloadType = "steamcmd" then
    match env.driver with
    | DriverResult.ok reason status =>
      -- lines 276-296: final status reply, unlock, delete the record
      { state := { runningDownloads := removeRD st.runningDownloads req.gameId
                   locks := releaseLock st.locks globalLockId }
        replies := [ackMsg,
          ReplyMsg.finalStatus req.replyTo req.requestId reason status false]
        crashed := false }
    | DriverResult.thrown (some m) =>
      -- lines 297-307: error reply, unlock, blank the record to an empty
      -- object
      { state := { runningDownloads := setRD st.runningDownloads req.gameId none
                   locks := releaseLock st.locks globalLockId }
        replies := [ackMsg,
          ReplyMsg.error req.replyTo req.requestId (ErrVal.str m)]
        crashed := false }
    | DriverResult.thrown none =>
      -- lines 308-312: a null rejection is ignored — no further reply,
      -- record and lock left in place
      { state := st, replies := [ackMsg], crashed := false }
  else
    -- lines 314-324: unknown download type — error reply, unlock, blank
    -- the record
    { state := { runningDownloads := setRD st.runningDownloads req.gameId none
                 locks := releaseLock st.locks globalLockId }
      replies := [ackMsg,
        ReplyMsg.error req.replyTo req.requestId (ErrVal.errObject "unsupported request")]
      crashed := false }

/-- Continuation of the handler from line 160 (after the task record was
created in state `checking locks`): acquire the global download lock, wait
for the base-mount pattern to clear, reject multifactor, then ack and run
the driver. -/
def dmAfterRecord (env : DMEnv) (st : DMState) (req : DMRequest)
    (gameInfo : Manifest) (globalLockId : String) : DMOutcome :=
  match env.spinLockErr with
  | some m =>
    -- lines 163-168: delete the record and reply with the error; the lock
    -- was not acquired
    { state := { st with runningDownloads := removeRD st.runningDownloads req.gameId }
      replies := [ReplyMsg.error req.replyTo req.requestId (ErrVal.str m)]
      crashed := false }
  | none =>
    let st := { st with locks := globalLockId :: st.locks }
    match env.spinClearErr with
    | some m =>
      -- lines 173-183: error reply, delete the record, release the lock
      { state := { runningDownloads := removeRD st.runningDownloads req.gameId
                   locks := releaseLock st.locks globalLockId }
        replies := [ReplyMsg.error req.replyTo req.requestId (ErrVal.str m)]
        crashed := false }
    | none =>
      -- line 186: record moves to state preparing
      let prepRec : TaskRec :=
        { request := req, gameId := req.gameId
          downloadId := gameInfo.downloadId
          downloadLocked := true, downloadState := "preparing"
          lastLog := [], errorField := none }
      let st := { st with
        runningDownloads := setRD st.runningDownloads req.gameId (some prepRec) }
      if req.steamcmdMultiFactorEnabled then
        -- lines 190-196: multifactor unsupported — error, delete, unlock
        { state := { runningDownloads := removeRD st.runningDownloads req.gameId
                     locks := releaseLock st.locks globalLockId }
          replies := [ReplyMsg.error req.replyTo req.requestId
            (ErrVal.str "multifactor auth not supported")]
          crashed := false }
      else
        dmRunDriver env st req gameInfo globalLockId

/-- Embedding of the `downloadUpdateGame` handler (downloadManager.mjs
lines 91-326). -/
def downloadUpdateGame (env : DMEnv) (st : DMState) (req : DMRequest) :
    DMOutcome :=
  -- lines 96-100: falsy gameId
  if req.gameId = "" then
    { state := st
      replies := [ReplyMsg.error req.replyTo req.requestId
        (ErrVal.errObject "gameId required")]
      crashed := false }
  -- lines 101-105: unsupported gameId
  else if req.gameId ∉ supportedGames then
    { state := st
      replies := [ReplyMsg.error req.replyTo req.requestId
        (ErrVal.errObject "gameId unsupported")]
      crashed := false }
  else
    let globalLockId := "downloadGame-" ++ req.gameId
    -- lines 117-125: load the manifest; the catch replies with
    -- `error.message` and then releases the (never acquired) global lock
    match env.manifests req.gameId with
    | Except.error msg =>
      { state := { st with locks := releaseLock st.locks globalLockId }
        replies := [ReplyMsg.error req.replyTo req.requestId (ErrVal.str msg)]
        crashed := false }
    | Except.ok gameInfo =>
      -- lines 127-158: dedup on the runningDownloads key
      match lookupRD st.runningDownloads req.gameId with
      | some (some rec) =>
        { state := st
          replies := [ReplyMsg.nack req.replyTo req.requestId true none
            "already requested" rec.request.replyTo rec.request.requestId
            rec.request]
          crashed := false }
      | some none =>
        -- the entry is an empty object: reading `.request.replyTo` throws
        { state := st, replies := [], crashed := true }
      | none =>
        let st := { st with runningDownloads :=
          st.runningDownloads ++ [(req.gameId,
            some { request := req, gameId := req.gameId
                   downloadId := gameInfo.downloadId
                   downloadLocked := true, downloadState := "checking locks"
                   lastLog := [], errorField := none })] }
        dmAfterRecord env st req gameInfo globalLockId

/-- Terminal reply classifier: the request/reply contract closes with
`finalStatus` or `error`. -/
def isTerminal : ReplyMsg → Bool
  | ReplyMsg.error _ _ _ => true
  | ReplyMsg.finalStatus _ _ _ _ _ => true
  | _ => false

/-- Ack classifier. -/
def isAck : ReplyMsg → Bool
  | ReplyMsg.ack _ _ _ => true
  | _ => false

/-! ## app/lib/ipc.mjs — wire shape of `sendRequestReply`

`sendRequestReply` (lines 131-140) mutates the payload object with the
echoed `requestId`, the sender `moduleIdent` and a timestamp, then
publishes `JSON.stringify(message)`.  The published error payload of the
download manager is flat except for the `error` field itself, so the wire
object is modelled as a list of key/leaf pairs.  `JSON.stringify` of an
`Error` instance yields an empty object because `message` and `stack` are
non-enumerable own properties.
-/

/-- Leaf of the serialised wire object. -/
inductive JLeaf where
  | str (s : String)
  | num (n : Int)
  | emptyObj
  deriving DecidableEq, Repr

/-- Serialisation of the `error` payload field. -/
def jsonOfErrVal : ErrVal → JLeaf
  | ErrVal.errObject _ => JLeaf.emptyObj
  | ErrVal.str s => JLeaf.str s

/-- Wire object published by `sendRequestReply` for an error reply of the
download manager: the payload plus the three fields the function adds. -/
def errorReplyWire (e : ErrVal) (requestId : String) (timestamp : Int) :
    List (String × JLeaf) :=
  [("error", jsonOfErrVal e),
   ("requestId", JLeaf.str requestId),
   ("moduleIdent", JLeaf.str "downloadManager"),
   ("timestamp", JLeaf.num timestamp)]

/-- Does the haystack start with the needle? -/
def startsWithList : List Char → List Char → Bool
  | _, [] => true
  | [], _ :: _ => false
  | h :: hs, n :: ns => h == n && startsWithList hs ns

/-- Substring test on character lists. -/
def containsSubList (needle : List Char) : List Char → Bool
  | [] => needle.isEmpty
  | h :: t => startsWithList (h :: t) needle || containsSubList needle t

/-- Substring test on strings. -/
def containsSub (hay needle : String) : Bool :=
  containsSubList needle.data hay.data

/-- Does any key or string leaf of the wire object contain the given text
as a substring? -/
def wireContainsText (needle : String) (w : List (String × JLeaf)) : Bool :=
  w.any (fun p =>
    containsSub p.fst needle ||
    (match p.snd with
     | JLeaf.str s => containsSub s needle
     | _ => false))

/-! ## app/bin/lifecycleManager.mjs — the start handler

The coordinator body (lines 122-223) is a single async handler.  Three
source facts dominate its observable exit behaviour:

* `exit` (lib/exitHandlers.mjs lines 81-102) does **not** terminate the
  process: it first arms a five-second watchdog,
  `setTimeout(() => throw, 5000).unref()` (lines 83-85), then unsubscribes
  every bus channel, calls `stop_watching` on the bus, removes **all**
  process listeners and merely sets `process.exitCode`; the handler then
  continues with the next statement.
* `downloadUpdateServerConfigGit` (lines 367-380) unconditionally rejects
  with `not yet implemented!`, so its catch (exit code 2) runs whenever
  the handler reaches the config stage.
* `waitModuleRunning` (lines 253-290) drives its timeout with a
  **referenced** one-second `setInterval` that stays armed for the whole
  readiness budget (30 s or 60 s).

Consequences, per path after the first `exit` call:

* If the handler next enters a `waitModuleRunning`, that referenced
  interval keeps the event loop alive well past five seconds, so the
  unreferenced watchdog fires and throws.  Every process listener was just
  removed, so the throw is an uncaught exception: Node prints the stack
  and terminates with its default code **1**, overriding the
  `process.exitCode` set by `exit` — the config readiness wait and the
  git stage behind it never execute.
* If the handler instead parks on the `downloadUpdateGame` await (the bus
  watcher is stopped, so neither the ack nor the nack subscription ever
  fires and the promise never settles), or finishes its body, no
  referenced handle remains: the loop drains within milliseconds, the
  unreferenced watchdog never fires, and the process exits with the last
  `process.exitCode` assignment.

Bus-side behaviour (whether the download manager answers, and what it
publishes on the reply channel) is an oracle in `LifeEnv`; everything else
is the source control flow.
-/

/-- Outcome of `spinLock` on the lifecycle instance lock (lines 127-134):
success, a rejection whose `code` is `EEXIST` (the only one the catch
reacts to), or any other rejection. -/
inductive LockOutcome where
  | ok
  | eexist
  | otherErr
  deriving DecidableEq, Repr

/-- Message observed by `waitTaskComplete` (lines 382-419) on the
subscribed reply channel: an `error` message, or a `finalStatus` with its
`reason` and `status` fields. -/
inductive BusReply where
  | errMsg (s : String)
  | final (reason status : String)
  deriving DecidableEq, Repr

/-- What the download stage (lines 297-365) observes after publishing the
request: an ack followed by a reply on the subscribed channel, a nack
carrying a `subscribeTo` followed by such a reply, a nack without
`subscribeTo` (whose handler returns without settling the promise), or no
answer at all. -/
inductive DlStage where
  | ackThen (r : BusReply)
  | nackSubThen (r : BusReply)
  | nackNoSub
  | noReply
  deriving DecidableEq, Repr

/-- Environment of one run of the start handler. -/
structure LifeEnv where
  lockOutcome : LockOutcome
  dmReady : Bool
  download : DlStage
  cfgReady : Bool
  deriving DecidableEq, Repr

/-- Observable result of the start handler: the `process.exitCode`
assignments made by `exit` in order, whether the armed watchdog fired as
an uncaught exception (crashing the process with the Node default
code 1), and whether the handler parked forever at a never-settling
await. -/
structure LifeResult where
  exits : List Nat
  crashed : Bool
  hung : Bool
  deriving DecidableEq, Repr

/-- Embedding of `waitTaskComplete`: an error message rejects; a final
status resolves when its `reason` is `completed` and rejects otherwise. -/
def waitTaskComplete : BusReply → Except Unit (String × String)
  | BusReply.errMsg _ => Except.error ()
  | BusReply.final r s =>
    if r = "completed" then Except.ok (r, s) else Except.error ()

/-- Download stage outcome when the bus is live, from the reply observed
on the subscribed channel (lines 164-180).  A rejection is caught at
lines 175-180: `exit(…, 2)`; a resolution with `status` other than
`completed` runs `exit(…, 3)` at line 170.  In both cases the handler
then enters the configManager readiness wait, whose referenced interval
keeps the loop alive until the five-second watchdog armed by that `exit`
throws — an uncaught exception, so the process crashes with code 1 and
the later stages never run.  After a resolution with `status` equal to
`completed` no `exit` has been called: the config wait consults the
oracle (a timeout appends exit code 2) and the git stage, which always
rejects, appends its catch exit code 2; the handler then finishes and the
loop drains before the watchdog. -/
def lifecycleAfterDownloadReply (r : BusReply) (cfgReady : Bool) :
    LifeResult :=
  match waitTaskComplete r with
  | Except.error _ => { exits := [2], crashed := true, hung := false }
  | Except.ok (_, status) =>
    if status ≠ "completed" then { exits := [3], crashed := true, hung := false }
    else if cfgReady then { exits := [2], crashed := false, hung := false }
    else { exits := [2, 2], crashed := false, hung := false }

/-- Embedding of the `ipc.on(start)` handler of the lifecycle coordinator
(lifecycleManager.mjs lines 122-223), with the `exit` watchdog semantics
described above. -/
def lifecycleStart (env : LifeEnv) : LifeResult :=
  match env.lockOutcome with
  | LockOutcome.eexist =>
    -- lines 127-134: exit(1); the handler then enters the downloadManager
    -- readiness wait, whose referenced 60-tick interval outlives the
    -- watchdog: uncaught throw, crash with code 1
    { exits := [1], crashed := true, hung := false }
  | LockOutcome.ok | LockOutcome.otherErr =>
    -- a non-EEXIST spinLock rejection is swallowed by the catch at
    -- lines 129-134 and execution continues with a live bus
    if env.dmReady then
      -- lines 146-180: the download request on the live bus
      match env.download with
      | DlStage.nackNoSub => { exits := [], crashed := false, hung := true }
      | DlStage.noReply => { exits := [], crashed := false, hung := true }
      | DlStage.ackThen r => lifecycleAfterDownloadReply r env.cfgReady
      | DlStage.nackSubThen r => lifecycleAfterDownloadReply r env.cfgReady
    else
      -- lines 138-144: readiness timeout, exit(2); the handler then
      -- publishes the download request on the stopped bus and parks on a
      -- promise that never settles; no referenced handle remains, so the
      -- loop drains before the watchdog and the process exits with code 2
      { exits := [2], crashed := false, hung := true }

/-- Final code the operating system observes: code 1 when the watchdog
throw crashed the process (the Node uncaught-exception default overrides
`process.exitCode`), otherwise the last `process.exitCode` assignment
once the loop drains, and none when the handler never called `exit` (the
process keeps running on its live bus subscriptions). -/
def processFinalCode (r : LifeResult) : Option Nat :=
  if r.crashed then some 1 else r.exits.getLast?

/-! ## app/bin/lifecycleManager.mjs — environment parsing and the download
request the coordinator issues -/

/-- Embedding of line 81: the anonymous-login flag is
`parseBool(process.env.STEAMCMD_LOGIN_ANON) || true`. -/
def steamcmdAnonymous (envVal : Option String) : Bool :=
  parseBool envVal || true

/-- Environment variables read by the coordinator to build its
`downloadUpdateGame` request (lines 55-96). -/
structure LifecycleEnvVars where
  gameId : String
  instanceId : String
  steamcmdLoginAnon : Option String
  steamcmdLoginUsername : Option String
  steamcmdLoginPassword : Option String
  steamcmdTwofactorEnabled : Option String
  steamcmdFilesForce : Option String
  serverFilesForce : Option String
  steamcmdInitialDownloadValidate : Option String
  steamCmdDir : String
  serverFilesBaseDir : String
  deriving DecidableEq, Repr

/-- Download request the coordinator publishes (lines 148-162 and
316-329); string-valued credentials default to `false` in the source,
rendered here as the empty string when absent. -/
def buildDownloadRequest (env : LifecycleEnvVars) (requestId : String) :
    DMRequest :=
  { requestId := requestId
    replyTo := "lifecycleManager." ++ requestId
    gameId := env.gameId
    validate := parseBool env.steamcmdInitialDownloadValidate || false
    steamCmdForce := parseBool env.steamcmdFilesForce || false
    steamCmdDir := env.steamCmdDir
    serverFilesForce := parseBool env.serverFilesForce || false
    downloadDir := env.serverFilesBaseDir
    anonymous := steamcmdAnonymous env.steamcmdLoginAnon
    username := env.steamcmdLoginUsername.getD ""
    password := env.steamcmdLoginPassword.getD ""
    steamcmdMultiFactorEnabled := parseBool env.steamcmdTwofactorEnabled || false }

/-! ## Concrete instances used by the closed theorems below -/

/-- The csgo manifest shipped in `app/manifests` (instances/examples). -/
def csgoManifest : Manifest :=
  { name := "csgo"
    displayName := "Counter-Strike: Global Offensive"
    downloadType := "steamcmd"
    downloadId := "740"
    binDir := "./"
    binName := "srcds_linux" }

/-- Manifest oracle of a host on which only the csgo manifest resolves. -/
def manifestsCsgo : String → Except String Manifest :=
  fun g => if g = "csgo" then Except.ok csgoManifest else
    Except.error "Cannot find module"

/-- Manifest oracle of a host on which every dynamic manifest import
fails. -/
def manifestsBroken : String → Except String Manifest :=
  fun _ => Except.error "Cannot find module csgo.mjs"

/-- A well-formed csgo download request from the CLI. -/
def reqCsgo : DMRequest :=
  { requestId := "r1", replyTo := "cli.r1", gameId := "csgo"
    validate := false, steamCmdForce := false
    steamCmdDir := "/opt/gsm/steamcmd", serverFilesForce := false
    downloadDir := "/opt/gsm/base/csgo", anonymous := true
    username := "", password := "", steamcmdMultiFactorEnabled := false }

/-- A request with an unsupported gameId. -/
def reqXyzzy : DMRequest :=
  { reqCsgo with requestId := "r2", replyTo := "cli.r2", gameId := "xyzzy" }

/-- A request with a falsy (missing) gameId. -/
def reqNoGame : DMRequest :=
  { reqCsgo with requestId := "r3", replyTo := "cli.r3", gameId := "" }

/-- The earlier csgo request whose download is still in flight. -/
def req0 : DMRequest :=
  { reqCsgo with requestId := "r0", replyTo := "lifecycleManager.r0" }

/-- The in-flight task record created for `req0`. -/
def recInflight : TaskRec :=
  { request := req0, gameId := "csgo", downloadId := "740"
    downloadLocked := true, downloadState := "running"
    lastLog := [], errorField := none }

/-- Manager state with the `req0` download in flight. -/
def stInflight : DMState :=
  { runningDownloads := [("csgo", some recInflight)]
    locks := ["downloadGame-csgo"] }

/-- Empty manager state. -/
def st0 : DMState := { runningDownloads := [], locks := [] }

/-- State in which another process holds the csgo download lock and no
local task is running. -/
def stPeerLock : DMState :=
  { runningDownloads := [], locks := ["downloadGame-csgo"] }

/-- Environment in which the steamcmd driver resolves successfully. -/
def envDriverOk : DMEnv :=
  { manifests := manifestsCsgo, spinLockErr := none, spinClearErr := none
    driver := DriverResult.ok "completed" "completed" }

/-- Environment in which the awaited driver promise rejects with the value
`null`. -/
def envDriverNull : DMEnv :=
  { manifests := manifestsCsgo, spinLockErr := none, spinClearErr := none
    driver := DriverResult.thrown none }

/-- Environment in which the manifest import fails. -/
def envManifestFail : DMEnv :=
  { manifests := manifestsBroken, spinLockErr := none, spinClearErr := none
    driver := DriverResult.ok "completed" "completed" }

/-- The steamcmd script the download manager builds for csgo. -/
def demoScript : List String :=
  ["+force_install_dir /opt/gsm/base/csgo", "+login anonymous",
   "+app_update 740", "+quit"]

/-- Six consecutive self-update exits (code 42) before a clean run. -/
def sixSelfUpdateExits : List SteamExitEvent :=
  List.replicate 6 (SteamExitEvent.exited 42) ++ [SteamExitEvent.exited 0]

/-- A progress line whose hexadecimal state number contains a letter. -/
def hexStateLine : List Char :=
  " Update state (0x6a) downloading, progress: 12.50 (625 / 5000)".data

/-- Coordinator environment: both managers answer pings, but the download
ends with an error message on the reply channel. -/
def lifeDownloadFailedEnv : LifeEnv :=
  { lockOutcome := LockOutcome.ok, dmReady := true
    download := DlStage.ackThen (BusReply.errMsg "Error while running steamcmd")
    cfgReady := true }

/-- Coordinator environment of literal scenario 6 of the specification:
the download manager never comes online. -/
def lifeDmTimeoutEnv : LifeEnv :=
  { lockOutcome := LockOutcome.ok, dmReady := false
    download := DlStage.noReply, cfgReady := true }

/-! ## Theorems -/

/-- Stage tags of the two snapshot kinds are distinct. -/
theorem stageBeqSelfAppid :
    (("steamcmd_download" : String) == "appid_download") = false := rfl

/-- Stage tag of the appid snapshot matches itself. -/
theorem stageBeqAppidAppid :
    (("appid_download" : String) == "appid_download") = true := rfl

/-- C3 counterexample: with two lock files matching the pattern, the first
free (its holder gone) and the second held, `isLocked` reports `false`
although a held matching lock exists — the claimed iff fails. -/
theorem isLocked_misses_held_lock :
    isLocked (fun s => s == "downloadGame-a" || s == "downloadGame-b")
        (fun s => s == "downloadGame-b")
        ["downloadGame-a", "downloadGame-b"] = false
    ∧ ("downloadGame-b" ∈ ["downloadGame-a", "downloadGame-b"])
    ∧ ((fun s : String => s == "downloadGame-a" || s == "downloadGame-b")
        "downloadGame-b" = true)
    ∧ ((fun s : String => s == "downloadGame-b") "downloadGame-b" = true) := by
  decide

/-- C3 (amended): `isLocked` returns the `checkSync` status of the first
directory entry matching the pattern; when no entry matches, it falls back
to testing the out-of-range sentinel string "undefined" and otherwise
resolves `false`.  In particular a held matching lock later in the
directory order is not consulted. -/
theorem isLocked_first_match_status (rxTest checkSync : String → Bool)
    (locks : List String) :
    isLocked rxTest checkSync locks =
      (match locks.find? rxTest with
       | some l => checkSync l
       | none => if rxTest "undefined" then checkSync "undefined" else false) := by
  induction locks with
  | nil => rfl
  | cons l ls ih =>
    by_cases hl : rxTest l = true
    · simp [isLocked, List.find?_cons_of_pos, hl]
    · rw [List.find?_cons_of_neg _ (by simpa using hl)]
      simp only [isLocked, hl, if_false, Bool.false_eq_true, ite_false]
      exact ih

/-- C4 counterexample: six consecutive exit-42 self-updates are all
re-spawned (seven spawns of the same script) before the clean exit — the
claimed cap of five consecutive re-spawns does not exist. -/
theorem runSteamCmd_retry_uncapped :
    runSteamCmdSpawns demoScript sixSelfUpdateExits
      = (List.replicate 7 demoScript, some RunOutcome.completed)
    ∧ (runSteamCmdSpawns demoScript sixSelfUpdateExits).1.length - 1 = 6
    ∧ ¬(6 ≤ 5) := by
  decide

/-- C4 (amended): an exit with code 42 re-spawns the tool with the same
script, without any bound: for every `n`, a run of `n` consecutive exit-42
events followed by a clean exit performs `n + 1` spawns of the identical
script and completes; and a run of `n` exit-42 events with the child still
running has not resolved, so nothing in the code limits the recursion
depth. -/
theorem runSteamCmd_retry_unbounded (script : List String) (n : Nat) :
    runSteamCmdSpawns script
        (List.replicate n (SteamExitEvent.exited 42) ++ [SteamExitEvent.exited 0])
      = (List.replicate (n + 1) script, some RunOutcome.completed)
    ∧ (runSteamCmdSpawns script
        (List.replicate n (SteamExitEvent.exited 42))).2 = none := by
  induction n with
  | zero => simp [runSteamCmdSpawns, List.replicate]
  | succ k ih =>
    refine ⟨?_, ?_⟩
    · simp [List.replicate, List.cons_append, runSteamCmdSpawns,
        List.append_eq, ih.1]
    · simp [List.replicate, runSteamCmdSpawns, List.append_eq, ih.2]

/-- C5 counterexample: a progress line whose state number contains the hex
letter `a` matches the regex stated in the specification but produces no
progress snapshot at all, because the source regex only admits decimal
digits after the `x`. -/
theorem appid_regex_rejects_hex_letters :
    (parseSpecGameDownload hexStateLine).isSome = true
    ∧ processLine hexStateLine = [] := by
  decide

/-- Per-line-list version of the appid-snapshot characterisation. -/
theorem processLines_appid_filter (ls : List (List Char)) :
    ((processLines ls).2.filter (fun s => s.downloadStage == "appid_download"))
      = (ls.filter (fun l => !l.isEmpty)).filterMap
          (fun l => (parseAppidLine l).map (mkAppidSnapshot l)) := by
  induction ls with
  | nil => rfl
  | cons l ls ih =>
    by_cases hl : l = []
    · simp [processLines, hl, ih]
    · have hne : l.isEmpty = false := by
        cases l with
        | nil => exact absurd rfl hl
        | cons c cs => rfl
      rcases hs : parseSteamSelfLine l with _ | c1 <;>
        rcases ha : parseAppidLine l with _ | c2 <;>
          simp [processLines, hl, processLine, hs, ha, hne, ih,
            mkSteamSelfSnapshot, mkAppidSnapshot, List.filter_append,
            stageBeqSelfAppid, stageBeqAppidAppid]

/-- C5 (amended): for every raw chunk, a game-download progress snapshot
(source stage tag `appid_download`) is pushed exactly for those non-empty
CRLF-separated lines that match the source regex, whose state group is a
decimal digit, a literal `x` and one or more decimal digits (hex letters
are not admitted); the snapshot carries the captured state, state name,
percentage and both byte counts. -/
theorem processData_appid_snapshots (raw : List Char) :
    ((processData raw).2.filter (fun s => s.downloadStage == "appid_download"))
      = ((splitCRLF raw).filter (fun l => !l.isEmpty)).filterMap
          (fun l => (parseAppidLine l).map (mkAppidSnapshot l)) :=
  processLines_appid_filter (splitCRLF raw)

/-- C9: `parseBool` returns `false` exactly for an absent or falsy (empty)
argument and for arguments whose lowercased and trimmed form is `false`,
`no`, `0` or the empty string; every other string yields `true`. -/
theorem parseBool_false_iff (v : Option String) :
    parseBool v = false ↔
      (v = none ∨ ∃ s, v = some s ∧
        (s = "" ∨ s.toLower.trim ∈ (["false", "no", "0", ""] : List String))) := by
  cases v with
  | none => simp [parseBool]
  | some s =>
    simp only [reduceCtorEq, Option.some.injEq, false_or,
      exists_eq_left']
    constructor
    · intro h
      by_cases hs : s = ""
      · exact Or.inl hs
      · right
        simp only [parseBool, if_neg hs] at h
        by_cases h1 : s.toLower.trim = "true" ∨ s.toLower.trim = "yes" ∨
            s.toLower.trim = "1"
        · simp [h1] at h
        · by_cases h2 : s.toLower.trim = "false" ∨ s.toLower.trim = "no" ∨
              s.toLower.trim = "0" ∨ s.toLower.trim = ""
          · rcases h2 with h2 | h2 | h2 | h2 <;> simp [h2]
          · simp [h1, h2] at h
    · rintro (hs | hmem)
      · simp [parseBool, hs]
      · have hlist : s.toLower.trim = "false" ∨ s.toLower.trim = "no" ∨
            s.toLower.trim = "0" ∨ s.toLower.trim = "" := by
          simpa using hmem
        by_cases hs : s = ""
        · simp [parseBool, hs]
        · rcases hlist with h' | h' | h' | h' <;>
            simp [parseBool, hs, h']

/-- C10: the anonymous-login flag `parseBool(env) || true` is the constant
`true` — two environments differing only in `STEAMCMD_LOGIN_ANON` produce
the same flag, and every download request the coordinator builds carries
`anonymous = true`. -/
theorem steamcmdAnonymous_constant :
    (∀ v1 v2 : Option String, steamcmdAnonymous v1 = steamcmdAnonymous v2)
    ∧ (∀ v : Option String, steamcmdAnonymous v = true)
    ∧ (∀ (env : LifecycleEnvVars) (rid : String),
        (buildDownloadRequest env rid).anonymous = true) := by
  refine ⟨?_, ?_, ?_⟩ <;> intros <;>
    simp [steamcmdAnonymous, buildDownloadRequest]

/-- C1: a `downloadUpdateGame` request whose gameId already has an
in-flight task record receives exactly one reply, a nack carrying
`alreadyRequested = true` and `subscribeTo` equal to the `replyTo` of the
originating request of the in-flight task, and the handler changes neither
the `runningDownloads` map nor the lock directory.  (The hypotheses hold
for every reachable in-flight record: records are only created for
supported, manifest-resolving gameIds, and dynamic imports are cached.) -/
theorem downloadUpdateGame_dedup_nack
    (env : DMEnv) (st : DMState) (req : DMRequest) (rec : TaskRec)
    (m : Manifest)
    (hgame : ¬ req.gameId = "")
    (hsup : req.gameId ∈ supportedGames)
    (hman : env.manifests req.gameId = Except.ok m)
    (hrec : lookupRD st.runningDownloads req.gameId = some (some rec)) :
    downloadUpdateGame env st req =
      { state := st
        replies := [ReplyMsg.nack req.replyTo req.requestId true none
          "already requested" rec.request.replyTo rec.request.requestId
          rec.request]
        crashed := false } := by
  simp [downloadUpdateGame, hgame, hsup, hman, hrec]

/-- C1 witness: the concrete second csgo request is nacked onto the
channel of the in-flight first request. -/
theorem downloadUpdateGame_dedup_nack_witness :
    downloadUpdateGame envDriverOk stInflight reqCsgo =
      { state := stInflight
        replies := [ReplyMsg.nack "cli.r1" "r1" true none "already requested"
          "lifecycleManager.r0" "r0" req0]
        crashed := false } :=
  downloadUpdateGame_dedup_nack envDriverOk stInflight reqCsgo recInflight
    csgoManifest (by decide) (by decide) rfl rfl

/-- Terminal count of the driver phase: exactly one terminal reply, except
that a null rejection of the driver promise produces none. -/
theorem dmRunDriver_terminal_count (env : DMEnv) (st : DMState)
    (req : DMRequest) (gi : Manifest) (lid : String) :
    ((dmRunDriver env st req gi lid).replies.filter isTerminal).length = 1
    ∨ (((dmRunDriver env st req gi lid).replies.filter isTerminal).length = 0
        ∧ env.driver = DriverResult.thrown none) := by
  unfold dmRunDriver
  by_cases hdt : gi.downloadType = "steamcmd"
  · cases hd : env.driver with
    | ok r s => left; simp [hdt, hd, isTerminal]
    | thrown e =>
      cases e with
      | none => right; simp [hdt, hd, isTerminal]
      | some msg => left; simp [hdt, hd, isTerminal]
  · left; simp [hdt, isTerminal]

/-- Terminal count from the record phase on: conditional on an ack having
been published, one terminal reply except in the null-rejection case. -/
theorem dmAfterRecord_terminal_count (env : DMEnv) (st : DMState)
    (req : DMRequest) (gi : Manifest) (lid : String)
    (h : (dmAfterRecord env st req gi lid).replies.any isAck = true) :
    ((dmAfterRecord env st req gi lid).replies.filter isTerminal).length = 1
    ∨ (((dmAfterRecord env st req gi lid).replies.filter isTerminal).length = 0
        ∧ env.driver = DriverResult.thrown none) := by
  unfold dmAfterRecord at h ⊢
  cases hsl : env.spinLockErr with
  | some m => simp only [hsl] at h; simp [isAck] at h
  | none =>
    simp only [hsl] at h ⊢
    cases hsc : env.spinClearErr with
    | some m => simp only [hsc] at h; simp [isAck] at h
    | none =>
      simp only [hsc] at h ⊢
      by_cases hmf : req.steamcmdMultiFactorEnabled = true
      · simp [hmf, isAck] at h
      · simp only [hmf, Bool.false_eq_true, if_false, ite_false] at h ⊢
        exact dmRunDriver_terminal_count env _ req gi lid

/-- C2 counterexample: on a well-formed csgo request whose driver promise
rejects with `null`, the handler publishes the ack and then no terminal
message at all — the claimed "exactly one terminal in every execution
path" fails. -/
theorem downloadUpdateGame_ack_without_terminal :
    ((downloadUpdateGame envDriverNull st0 reqCsgo).replies.any isAck = true)
    ∧ (((downloadUpdateGame envDriverNull st0 reqCsgo).replies.filter
        isTerminal).length = 0) := by
  decide

/-- C2 (amended): every request the handler acks is followed by exactly
one terminal message on its reply channel, except that a rejection of the
awaited driver promise with the value `null` is silently ignored and no
terminal message is published. -/
theorem downloadUpdateGame_ack_terminal_count
    (env : DMEnv) (st : DMState) (req : DMRequest)
    (h : (downloadUpdateGame env st req).replies.any isAck = true) :
    ((downloadUpdateGame env st req).replies.filter isTerminal).length = 1
    ∨ (((downloadUpdateGame env st req).replies.filter isTerminal).length = 0
        ∧ env.driver = DriverResult.thrown none) := by
  unfold downloadUpdateGame at h ⊢
  by_cases h1 : req.gameId = ""
  · simp [h1, isAck] at h
  · simp only [h1, if_false, ite_false] at h ⊢
    by_cases h2 : req.gameId ∉ supportedGames
    · simp [h2, isAck] at h
    · simp only [h2, if_false, ite_false] at h ⊢
      cases hm : env.manifests req.gameId with
      | error msg => simp only [hm] at h; simp [isAck] at h
      | ok gi =>
        simp only [hm] at h ⊢
        cases hl : lookupRD st.runningDownloads req.gameId with
        | none =>
          simp only [hl] at h ⊢
          exact dmAfterRecord_terminal_count env _ req gi _ h
        | some o =>
          cases o with
          | none => simp only [hl] at h; simp [isAck] at h
          | some rec => simp only [hl] at h; simp [isAck] at h

/-- C2 witness for the amended statement: a successful run has exactly one
terminal message. -/
theorem downloadUpdateGame_ack_terminal_count_witness :
    ((downloadUpdateGame envDriverOk st0 reqCsgo).replies.filter
      isTerminal).length = 1
    ∨ (((downloadUpdateGame envDriverOk st0 reqCsgo).replies.filter
        isTerminal).length = 0
        ∧ envDriverOk.driver = DriverResult.thrown none) :=
  downloadUpdateGame_ack_terminal_count envDriverOk st0 reqCsgo (by decide)

/-- C6: in every execution of the coordinator start handler, the process
either keeps running (no exit code was ever set) or terminates with final
exit code 1 or 2 — never 3 and never 4.  A module-readiness timeout does
terminate with code 2, as the claim says; but a failed base-game download
sets `process.exitCode = 2` (not 3) in its catch and is then overridden
by the five-second watchdog crash (Node default code 1) while the config
readiness interval keeps the loop alive, and the config stage, which
always rejects as not yet implemented, exits with 2 (not 4) when it runs
at all.  The concrete conjuncts evaluate both inputs: the failing
download records the single assignment 2 and crashes to final code 1,
and the readiness-timeout run terminates with final code 2. -/
theorem lifecycle_final_exit_code :
    (∀ env : LifeEnv,
      processFinalCode (lifecycleStart env) = none
      ∨ processFinalCode (lifecycleStart env) = some 1
      ∨ processFinalCode (lifecycleStart env) = some 2)
    ∧ lifecycleStart lifeDownloadFailedEnv
        = { exits := [2], crashed := true, hung := false }
    ∧ processFinalCode (lifecycleStart lifeDownloadFailedEnv) = some 1
    ∧ lifecycleStart lifeDmTimeoutEnv
        = { exits := [2], crashed := false, hung := true }
    ∧ processFinalCode (lifecycleStart lifeDmTimeoutEnv) = some 2 := by
  refine ⟨?_, by decide, by decide, by decide, by decide⟩
  intro env
  obtain ⟨lo, dm, dl, cfg⟩ := env
  cases dl with
  | ackThen r =>
    rcases r with s | ⟨rs, stt⟩ <;>
      cases lo <;> cases dm <;> cases cfg <;>
        first
          | (right; left; rfl)
          | (right; right; rfl)
          | (by_cases h1 : rs = "completed" <;>
              by_cases h2 : stt = "completed" <;>
                simp [lifecycleStart, lifecycleAfterDownloadReply,
                  waitTaskComplete, processFinalCode, h1, h2])
  | nackSubThen r =>
    rcases r with s | ⟨rs, stt⟩ <;>
      cases lo <;> cases dm <;> cases cfg <;>
        first
          | (right; left; rfl)
          | (right; right; rfl)
          | (by_cases h1 : rs = "completed" <;>
              by_cases h2 : stt = "completed" <;>
                simp [lifecycleStart, lifecycleAfterDownloadReply,
                  waitTaskComplete, processFinalCode, h1, h2])
  | nackNoSub =>
    cases lo <;> cases dm <;> cases cfg <;>
      first
        | (left; rfl)
        | (right; left; rfl)
        | (right; right; rfl)
  | noReply =>
    cases lo <;> cases dm <;> cases cfg <;>
      first
        | (left; rfl)
        | (right; left; rfl)
        | (right; right; rfl)

/-- C7 (code evaluation): a request with a missing gameId and one with an
unsupported gameId leave the manager state (including the lock directory)
untouched, but a supported request whose manifest import fails removes the
`downloadGame-csgo` lock file held by another process — the manifest catch
releases a lock this request never acquired. -/
theorem downloadManager_validation_lock_handling :
    (downloadUpdateGame envManifestFail stPeerLock reqNoGame).state = stPeerLock
    ∧ (downloadUpdateGame envManifestFail stPeerLock reqXyzzy).state
        = stPeerLock
    ∧ stPeerLock.locks = ["downloadGame-csgo"]
    ∧ (downloadUpdateGame envManifestFail stPeerLock reqCsgo).state.locks = []
    ∧ (downloadUpdateGame envManifestFail stPeerLock reqCsgo).replies
        = [ReplyMsg.error "cli.r1" "r1"
            (ErrVal.str "Cannot find module csgo.mjs")] := by
  decide

/-- C8 (code evaluation): for an unsupported gameId the handler replies
with an `Error`-valued payload field; the wire object published by
`sendRequestReply` serialises that field to an empty JSON object, so no
part of the published payload contains the text `gameId unsupported`. -/
theorem gameId_unsupported_error_wire :
    (downloadUpdateGame envManifestFail st0 reqXyzzy).replies
      = [ReplyMsg.error "cli.r2" "r2" (ErrVal.errObject "gameId unsupported")]
    ∧ errorReplyWire (ErrVal.errObject "gameId unsupported") "r2" 1700000000000
      = [("error", JLeaf.emptyObj), ("requestId", JLeaf.str "r2"),
         ("moduleIdent", JLeaf.str "downloadManager"),
         ("timestamp", JLeaf.num 1700000000000)]
    ∧ wireContainsText "gameId unsupported"
        (errorReplyWire (ErrVal.errObject "gameId unsupported") "r2"
          1700000000000) = false := by
  decide

end GsMgr
